import Mathlib

/-
Verification of the Lark/Feishu Bitable provisioning scripts.

Shallow embedding of the Python sources:
  src/enhanced-mcp-agent.py      (EnhancedMCPAgent)
  src/mcp-tool-agent.py          (MCPToolAgent.convert_field_type, create_table)
  src/setup-crm-relationships.py (SetupCRMRelationships.setup_relationships)

Remote HTTP calls are modelled by oracles: a function from the request
position (chunk index, table name, table id) to the response the remote
system gives.  Japanese identifiers from the sources are transcribed as
Unicode escape sequences of the exact codepoints stored in the files
(enhanced-mcp-agent.py stores its field-name literals as mojibake
codepoints; those exact codepoints are reproduced here).
-/

set_option maxRecDepth 8000

namespace LarkMcp

/-! ## Batch record loader (EnhancedMCPAgent.batch_add_records, lines 294-329)

The Python loop is `for i in range(0, len(records), batch_size)` with
`batch_size = 100`; the chunk submitted at step `i` is `records[i:i+100]`.
The response of the k-th `batch_create` POST is given by an oracle
`resp : Nat → ChunkResp`; on `code == 0` the source adds
`len(result["data"]["records"])` to its running total, on a non-zero code
it logs and returns `False` at once, and an exception is caught by the
outer handler which also returns `False`. -/

/-- Response of one `records/batch_create` POST: `ok n` is a `code == 0`
response whose `data.records` list has length `n`; `err` is a non-zero
`code` with its message; `exn` is a raised exception. -/
inductive ChunkResp where
  | ok (insertedCount : Nat)
  | err (code : Int) (msg : String)
  | exn (msg : String)
  deriving DecidableEq, Repr

/-- Observable outcome of `batch_add_records`: the returned boolean, the
running total the source logs, and the number of `batch_create` POSTs
issued. -/
structure BatchResult where
  success : Bool
  total_added : Nat
  requests : Nat
  deriving DecidableEq, Repr

/-- Number of iterations of `range(0, n, bs)` in Python: the ceiling of
`n / bs`. -/
def numChunks (bs n : Nat) : Nat := (n + bs - 1) / bs

/-- The chunk list the loop slices: `records[100*k : 100*k + 100]` for each
iteration index `k`. -/
def chunksOf (bs : Nat) (l : List α) : List (List α) :=
  (List.range (numChunks bs l.length)).map fun i => (l.drop (bs * i)).take bs

/-- Inserted count granted by a chunk response (`0` for a failed chunk). -/
def respAdded : ChunkResp → Nat
  | .ok n => n
  | .err _ _ => 0
  | .exn _ => 0

/-- Sum of the inserted counts of `m` consecutive chunk responses starting
at chunk index `k`. -/
def sumAdded (resp : Nat → ChunkResp) (k : Nat) : Nat → Nat
  | 0 => 0
  | m + 1 => respAdded (resp k) + sumAdded resp (k + 1) m

/-- The loop body of `batch_add_records`: walks the chunk list keeping the
chunk index and the running total.  A non-zero code or an exception makes
the source return `False` immediately, leaving the remaining chunks
unsubmitted. -/
def batchGo (resp : Nat → ChunkResp) : List (List α) → Nat → Nat → BatchResult
  | [], _, total => ⟨true, total, 0⟩
  | _chunk :: rest, k, total =>
    match resp k with
    | .ok n =>
      let r := batchGo resp rest (k + 1) (total + n)
      ⟨r.success, r.total_added, r.requests + 1⟩
    | .err _ _ => ⟨false, total, 1⟩
    | .exn _ => ⟨false, total, 1⟩

/-- EnhancedMCPAgent.batch_add_records: splits `records` into batches of
100 and submits them sequentially. -/
def batch_add_records (resp : Nat → ChunkResp) (records : List α) : BatchResult :=
  batchGo resp (chunksOf 100 records) 0 0

lemma sumAdded_eq (resp : Nat → ChunkResp) :
    ∀ (m k : Nat),
      sumAdded resp k m = ((List.range m).map fun j => respAdded (resp (k + j))).sum := by
  intro m
  induction m with
  | zero => intro k; simp [sumAdded]
  | succ m ih =>
    intro k
    rw [sumAdded, ih (k + 1), List.range_succ_eq_map, List.map_cons, List.map_map,
      List.sum_cons]
    have hfun : ((fun j => respAdded (resp (k + j))) ∘ Nat.succ)
        = fun j => respAdded (resp (k + 1 + j)) := by
      funext j
      have : k + Nat.succ j = k + 1 + j := by omega
      simp [Function.comp, this]
    rw [hfun]
    simp

lemma sumAdded_zero (resp : Nat → ChunkResp) (m : Nat) :
    sumAdded resp 0 m = ((List.range m).map fun i => respAdded (resp i)).sum := by
  rw [sumAdded_eq]
  simp

lemma batchGo_all_ok (resp : Nat → ChunkResp) :
    ∀ (cs : List (List α)) (k total : Nat),
      (∀ j, j < cs.length → ∃ n, resp (k + j) = .ok n) →
      batchGo resp cs k total = ⟨true, total + sumAdded resp k cs.length, cs.length⟩ := by
  intro cs
  induction cs with
  | nil => intro k total _; simp [batchGo, sumAdded]
  | cons c rest ih =>
    intro k total h
    obtain ⟨n, hn⟩ := by
      have := h 0 (by simp)
      simpa using this
    have hrest : ∀ j, j < rest.length → ∃ m, resp (k + 1 + j) = .ok m := by
      intro j hj
      obtain ⟨m, hm⟩ := h (j + 1) (by simp; omega)
      exact ⟨m, by rw [show k + 1 + j = k + (j + 1) by omega]; exact hm⟩
    rw [batchGo, hn]
    dsimp only
    rw [ih (k + 1) (total + n) hrest]
    simp [sumAdded, hn, respAdded]
    omega

lemma batchGo_fail (resp : Nat → ChunkResp) :
    ∀ (cs : List (List α)) (k0 total fk : Nat),
      fk < cs.length →
      (∀ j, j < fk → ∃ n, resp (k0 + j) = .ok n) →
      (∀ n, resp (k0 + fk) ≠ .ok n) →
      batchGo resp cs k0 total = ⟨false, total + sumAdded resp k0 fk, fk + 1⟩ := by
  intro cs
  induction cs with
  | nil => intro k0 total fk hfk _ _; simp at hfk
  | cons c rest ih =>
    intro k0 total fk hfk hok hfail
    cases fk with
    | zero =>
      cases hresp : resp k0 with
      | ok n =>
        exact absurd (by simpa using hresp) (hfail n)
      | err code msg => rw [batchGo, hresp]; simp [sumAdded]
      | exn msg => rw [batchGo, hresp]; simp [sumAdded]
    | succ fk =>
      obtain ⟨n, hn⟩ := by
        have := hok 0 (by omega)
        simpa using this
      have hok2 : ∀ j, j < fk → ∃ m, resp (k0 + 1 + j) = .ok m := by
        intro j hj
        obtain ⟨m, hm⟩ := hok (j + 1) (by omega)
        exact ⟨m, by rw [show k0 + 1 + j = k0 + (j + 1) by omega]; exact hm⟩
      have hfail2 : ∀ m, resp (k0 + 1 + fk) ≠ .ok m := by
        intro m
        rw [show k0 + 1 + fk = k0 + (fk + 1) by omega]
        exact hfail m
      rw [batchGo, hn]
      dsimp only
      rw [ih (k0 + 1) (total + n) fk (by simpa using hfk) hok2 hfail2]
      simp [sumAdded, hn, respAdded]
      omega

lemma chunksOf_flatten_aux :
    ∀ (fuel : Nat) (l : List α), l.length ≤ fuel → (chunksOf 100 l).flatten = l := by
  intro fuel
  induction fuel with
  | zero =>
    intro l hl
    have : l = [] := List.eq_nil_of_length_eq_zero (by omega)
    subst this
    simp [chunksOf, numChunks]
  | succ fuel ih =>
    intro l hl
    by_cases hnil : l = []
    · subst hnil
      simp [chunksOf, numChunks]
    · have hpos : 0 < l.length := List.length_pos.mpr hnil
      have hm : numChunks 100 l.length = numChunks 100 (l.length - 100) + 1 := by
        simp only [numChunks]
        omega
      have hdroplen : (l.drop 100).length = l.length - 100 := by simp
      rw [chunksOf, hm, List.range_succ_eq_map, List.map_cons, List.map_map,
        List.flatten_cons]
      have hfun : ((fun i => (l.drop (100 * i)).take 100) ∘ Nat.succ)
          = fun i => ((l.drop 100).drop (100 * i)).take 100 := by
        funext i
        simp only [Function.comp_apply, List.drop_drop, Nat.mul_succ]
        rw [Nat.add_comm]
      have htail : (List.range (numChunks 100 (l.length - 100))).map
            ((fun i => (l.drop (100 * i)).take 100) ∘ Nat.succ) = chunksOf 100 (l.drop 100) := by
        rw [hfun, chunksOf, hdroplen]
      rw [htail]
      have hrec : (chunksOf 100 (l.drop 100)).flatten = l.drop 100 := by
        apply ih
        rw [hdroplen]
        omega
      rw [hrec]
      simp

lemma chunksOf_flatten (l : List α) : (chunksOf 100 l).flatten = l :=
  chunksOf_flatten_aux l.length l le_rfl

lemma chunk_full_length (l : List α) (i : Nat) (h : i + 1 < numChunks 100 l.length) :
    ((l.drop (100 * i)).take 100).length = 100 := by
  simp only [numChunks] at h
  simp only [List.length_take, List.length_drop]
  omega

/-- Claim C7: for a record list of size R, `batch_add_records` slices exactly
ceil(R/100) chunks, the chunks partition the input in order with every chunk
except possibly the last holding exactly 100 records, and when every chunk
succeeds the function issues one request per chunk, returns success, and its
logged total equals the sum of the per-chunk inserted counts. -/
theorem batch_chunking_spec (resp : Nat → ChunkResp) (records : List α)
    (hall : ∀ i, i < numChunks 100 records.length → ∃ n, resp i = .ok n) :
    (chunksOf 100 records).length = (records.length + 99) / 100
  ∧ (chunksOf 100 records).flatten = records
  ∧ (∀ i, i + 1 < numChunks 100 records.length →
      ((records.drop (100 * i)).take 100).length = 100)
  ∧ (batch_add_records resp records).success = true
  ∧ (batch_add_records resp records).requests = numChunks 100 records.length
  ∧ (batch_add_records resp records).total_added
      = ((List.range (numChunks 100 records.length)).map fun i => respAdded (resp i)).sum := by
  have hlen : (chunksOf 100 records).length = numChunks 100 records.length := by
    simp [chunksOf]
  have hbatch : batch_add_records resp records
      = ⟨true, 0 + sumAdded resp 0 (chunksOf 100 records).length,
          (chunksOf 100 records).length⟩ :=
    batchGo_all_ok resp (chunksOf 100 records) 0 0 (by
      intro j hj
      rw [hlen] at hj
      simpa using hall j hj)
  refine ⟨?_, chunksOf_flatten records, fun i hi => chunk_full_length records i hi, ?_, ?_, ?_⟩
  · rw [hlen]
    simp only [numChunks]
    omega
  · rw [hbatch]
  · rw [hbatch]
    exact hlen
  · rw [hbatch]
    simp only [hlen, Nat.zero_add]
    exact sumAdded_zero resp (numChunks 100 records.length)

/-- Record list of 230 records (contents irrelevant to the loader). -/
def recs230 : List Bool := List.replicate 230 true

/-- Oracle where every chunk succeeds: chunks 0 and 1 insert 100 records
each, chunk 2 inserts the remaining 30. -/
def resp230 : Nat → ChunkResp := fun i => if i = 2 then .ok 30 else .ok 100

/-- Witness for C7: 230 records give 3 chunks, 3 requests, and a reported
total of 230 when all chunks succeed. -/
theorem batch_chunking_spec_witness :
    (chunksOf 100 recs230).length = 3
  ∧ (chunksOf 100 recs230).flatten = recs230
  ∧ ((recs230.drop (100 * 0)).take 100).length = 100
  ∧ (batch_add_records resp230 recs230).success = true
  ∧ (batch_add_records resp230 recs230).requests = 3
  ∧ (batch_add_records resp230 recs230).total_added = 230 := by
  have h := batch_chunking_spec resp230 recs230 (by
    intro i hi
    have h3 : i < 3 := by
      have hnum : numChunks 100 recs230.length = 3 := by decide
      omega
    interval_cases i
    · exact ⟨100, rfl⟩
    · exact ⟨100, rfl⟩
    · exact ⟨30, rfl⟩)
  exact ⟨h.1.trans (by decide), h.2.1, h.2.2.1 0 (by decide), h.2.2.2.1,
    (h.2.2.2.2.1).trans (by decide), (h.2.2.2.2.2).trans (by decide)⟩

/-- Record list of 250 records, matching the 250-record scenario of the
claim. -/
def recs250 : List Bool := List.replicate 250 true

/-- Oracle where chunk 2 of 3 (index 1) fails with a non-zero code and the
other chunks would succeed with 100 inserts each. -/
def resp250 : Nat → ChunkResp := fun i => if i = 1 then .err 1 "batch failed" else .ok 100

/-- Claim C1 counterexample: for 250 records with chunk 2 of 3 failing,
`batch_add_records` stops after the failing chunk (2 requests, not 3),
returns the bare boolean false, and its running total is 100, not the 200
the claim requires: the remaining chunk is never submitted and no partial
success is surfaced. -/
theorem batch_cex_chunk2_failure :
    batch_add_records resp250 recs250 = ⟨false, 100, 2⟩
  ∧ ¬((batch_add_records resp250 recs250).requests = 3
      ∧ (batch_add_records resp250 recs250).total_added = 200) := by
  decide

/-- Claim C1 amended: `batch_add_records` has no non-fail-fast mode — on the
first failing chunk k (0-based) it stops submitting, having issued exactly
k+1 requests, and returns false with the prior chunks' running total kept
only internally (the function reports a bare boolean). -/
theorem batch_fail_fast (resp : Nat → ChunkResp) (records : List α) (k : Nat)
    (hk : k < numChunks 100 records.length)
    (hok : ∀ i, i < k → ∃ n, resp i = .ok n)
    (hfail : ∀ n, resp k ≠ .ok n) :
    batch_add_records resp records = ⟨false, sumAdded resp 0 k, k + 1⟩ := by
  have hlen : (chunksOf 100 records).length = numChunks 100 records.length := by
    simp [chunksOf]
  have h := batchGo_fail resp (chunksOf 100 records) 0 0 k (by rw [hlen]; exact hk)
    (by intro j hj; simpa using hok j hj) (by simpa using hfail)
  simpa [batch_add_records] using h

/-- Witness for the amended C1: at the concrete 250-record scenario with
chunk 2 failing, the loader issues 2 requests and returns false with an
internal total of 100. -/
theorem batch_fail_fast_witness :
    batch_add_records resp250 recs250
      = ⟨false, sumAdded resp250 0 1, 2⟩ :=
  batch_fail_fast resp250 recs250 1 (by decide)
    (fun i hi => by
      have h0 : i = 0 := by omega
      subst h0
      exact ⟨100, rfl⟩)
    (fun n h =>
      ChunkResp.noConfusion (show ChunkResp.err 1 "batch failed" = ChunkResp.ok n from h))

/-! ## Credential manager (EnhancedMCPAgent.get_access_token, lines 96-128)

The cached token is reused when it is truthy, an expiry is cached, and the
current time is strictly before the cached expiry minus the 5-minute
safety margin.  Otherwise one issuance POST is made; on `code == 0` the
token field and a fresh expiry (`now + expire`, defaulting `expire` to
7200) are stored together; on a non-zero code or an exception the function
returns None.  Times are modelled as integer seconds. -/

/-- The mutable pair `(self.access_token, self.token_expires_at)`. -/
structure TokenState where
  access_token : Option String
  token_expires_at : Option Int
  deriving DecidableEq, Repr

/-- Response of the `tenant_access_token/internal` POST: a JSON body with
its `code`, optional `tenant_access_token` and optional `expire` fields, or
a raised exception. -/
inductive IssueResp where
  | resp (code : Int) (tenant_access_token : Option String) (expire : Option Int)
  | exn (msg : String)
  deriving DecidableEq, Repr

/-- Observable outcome of one `get_access_token` call: the returned value,
the state afterwards, and the number of issuance POSTs made. -/
structure TokenOutcome where
  result : Option String
  state : TokenState
  requests : Nat
  deriving DecidableEq, Repr

/-- The reuse condition of lines 101-102: `self.access_token` truthy (a
non-empty string), an expiry cached, and
`current_time < token_expires_at - timedelta(minutes=5)`. -/
def tokenValid (now : Int) (st : TokenState) : Bool :=
  match st.access_token, st.token_expires_at with
  | some t, some e => t != "" && decide (now < e - 300)
  | _, _ => false

/-- EnhancedMCPAgent.get_access_token. -/
def get_access_token (issue : IssueResp) (now : Int) (st : TokenState)
    (force_refresh : Bool) : TokenOutcome :=
  if !force_refresh && tokenValid now st then
    ⟨st.access_token, st, 0⟩
  else
    match issue with
    | .resp code tat expire =>
      if code = 0 then
        ⟨tat, ⟨tat, some (now + expire.getD 7200)⟩, 1⟩
      else
        ⟨none, st, 1⟩
    | .exn _ => ⟨none, st, 1⟩

/-- Claim C4: with a token `tok` cached at time T with server lifetime E, a
non-forced call strictly before T + E - 300 returns the cached token with
zero issuance requests and an unchanged state, and a call at or after that
boundary with a successful issuance performs exactly one request and stores
the new token together with the expiry computed from the server lifetime. -/
theorem token_cache_boundary (issue : IssueResp) (T E now : Int) (tok : String)
    (htok : tok ≠ "") :
    (now < T + E - 300 →
      get_access_token issue now ⟨some tok, some (T + E)⟩ false
        = ⟨some tok, ⟨some tok, some (T + E)⟩, 0⟩)
  ∧ (T + E - 300 ≤ now → ∀ (newTok : String) (E2 : Int),
      issue = .resp 0 (some newTok) (some E2) →
      get_access_token issue now ⟨some tok, some (T + E)⟩ false
        = ⟨some newTok, ⟨some newTok, some (now + E2)⟩, 1⟩) := by
  constructor
  · intro hlt
    have hvalid : tokenValid now ⟨some tok, some (T + E)⟩ = true := by
      simp [tokenValid, htok, hlt]
    simp [get_access_token, hvalid]
  · intro hge newTok E2 hissue
    have hvalid : tokenValid now ⟨some tok, some (T + E)⟩ = false := by
      simp [tokenValid, htok]
      omega
    subst hissue
    simp [get_access_token, hvalid]

/-- Concrete issuance response used by the C4 witness. -/
def issueW : IssueResp := .resp 0 (some "t1") (some 7200)

/-- Witness for C4: token "t0" cached at T = 0 with E = 7200 is reused at
time 100 without a request, and refreshed with exactly one request at the
boundary time 6900. -/
theorem token_cache_boundary_witness :
    get_access_token issueW 100 ⟨some "t0", some 7200⟩ false
      = ⟨some "t0", ⟨some "t0", some 7200⟩, 0⟩
  ∧ get_access_token issueW 6900 ⟨some "t0", some 7200⟩ false
      = ⟨some "t1", ⟨some "t1", some (6900 + 7200)⟩, 1⟩ :=
  ⟨(token_cache_boundary issueW 0 7200 100 "t0" (by decide)).1 (by decide),
   (token_cache_boundary issueW 0 7200 6900 "t0" (by decide)).2 (by decide) "t1" 7200 rfl⟩

/-- Claim C8 counterexample: a malformed issuance response (`code == 0` but
no `tenant_access_token` field) makes `get_access_token` return a failure
value while still overwriting the cache: the stale token "old" is cleared
and a fresh expiry now + 7200 is stored, so the cache is not left
unchanged. -/
theorem token_malformed_mutates_cex :
    get_access_token (.resp 0 none none) 1000 ⟨some "old", some 0⟩ false
      = ⟨none, ⟨none, some 8200⟩, 1⟩
  ∧ (⟨none, some 8200⟩ : TokenState) ≠ ⟨some "old", some 0⟩ := by
  decide

/-- Claim C8 amended: whenever the issuance path is taken, a non-zero code
or an exception returns None with the cached token and expiry left
unchanged, while a code-0 response missing the token field also returns
None but replaces the cache with a cleared token and a fresh expiry. -/
theorem token_failure_cache (now : Int) (st : TokenState) (force_refresh : Bool)
    (h : force_refresh = true ∨ tokenValid now st = false) :
    (∀ (code : Int) (tat : Option String) (expire : Option Int), code ≠ 0 →
      get_access_token (.resp code tat expire) now st force_refresh = ⟨none, st, 1⟩)
  ∧ (∀ msg, get_access_token (.exn msg) now st force_refresh = ⟨none, st, 1⟩)
  ∧ (∀ (expire : Option Int),
      get_access_token (.resp 0 none expire) now st force_refresh
        = ⟨none, ⟨none, some (now + expire.getD 7200)⟩, 1⟩) := by
  have hcond : (!force_refresh && tokenValid now st) = false := by
    rcases h with h | h <;> simp [h]
  refine ⟨?_, ?_, ?_⟩
  · intro code tat expire hcode
    simp [get_access_token, hcond, hcode]
  · intro msg
    simp [get_access_token, hcond]
  · intro expire
    simp [get_access_token, hcond]

/-- Witness for the amended C8: with an empty cache at time 0, a code-5
response and an exception leave the state unchanged, while a code-0
response without a token clears the cache and stores expiry 7200. -/
theorem token_failure_cache_witness :
    get_access_token (.resp 5 none none) 0 ⟨none, none⟩ false = ⟨none, ⟨none, none⟩, 1⟩
  ∧ get_access_token (.exn "timeout") 0 ⟨none, none⟩ false = ⟨none, ⟨none, none⟩, 1⟩
  ∧ get_access_token (.resp 0 none none) 0 ⟨none, none⟩ false
      = ⟨none, ⟨none, some 7200⟩, 1⟩ :=
  ⟨(token_failure_cache 0 ⟨none, none⟩ false (Or.inr rfl)).1 5 none none (by decide),
   (token_failure_cache 0 ⟨none, none⟩ false (Or.inr rfl)).2.1 "timeout",
   by
    have h := (token_failure_cache 0 ⟨none, none⟩ false (Or.inr rfl)).2.2 none
    simpa using h⟩

/-! ## Health monitor (EnhancedMCPAgent.monitor_system_health, lines 331-376)

The monitor iterates the created-tables registry; for each entry the
metadata GET is modelled by an oracle keyed by table id.  A `code == 0`
response adds a "healthy" entry with the returned counts, a non-zero code
or an exception adds an "error" entry and downgrades the overall status to
"degraded"; each fetch sits in its own try/except, so a failure for one
table never stops the remaining tables from being checked. -/

/-- Response of the table-metadata GET: `ok` is a `code == 0` body carrying
`record_count`, the length of `fields`, and `revision`; `err` is a non-zero
code whose `msg` field may be absent; `exn` is a raised exception. -/
inductive FetchResp where
  | ok (record_count : Nat) (field_count : Nat) (revision : Nat)
  | err (code : Int) (msg : Option String)
  | exn (msg : String)
  deriving DecidableEq, Repr

/-- One per-table entry of `health_status["tables"]`; absent dict keys are
`none`. -/
structure TableHealth where
  status : String
  record_count : Option Nat
  field_count : Option Nat
  last_modified : Option Nat
  error : Option String
  deriving DecidableEq, Repr

/-- The monitor report: per-table entries in registry order plus the
overall status. -/
structure HealthReport where
  tables : List (String × TableHealth)
  overall_status : String
  deriving DecidableEq, Repr

/-- The entry the loop body builds for one fetch response. -/
def tableEntry : FetchResp → TableHealth
  | .ok rc fc rev => ⟨"healthy", some rc, some fc, some rev, none⟩
  | .err _ msg => ⟨"error", none, none, none, some (msg.getD "Unknown error")⟩
  | .exn msg => ⟨"error", none, none, none, some msg⟩

/-- Whether a fetch response is a `code == 0` success. -/
def fetchOk : FetchResp → Bool
  | .ok _ _ _ => true
  | .err _ _ => false
  | .exn _ => false

/-- The monitor loop: walks the registry accumulating per-table entries and
the overall status, which starts "healthy" and is set to "degraded" on any
error entry. -/
def monitorGo (fetch : String → FetchResp) :
    List (String × String) → List (String × TableHealth) → String →
      List (String × TableHealth) × String
  | [], acc, overall => (acc, overall)
  | (name, tid) :: rest, acc, overall =>
    match fetch tid with
    | .ok rc fc rev =>
      monitorGo fetch rest (acc ++ [(name, ⟨"healthy", some rc, some fc, some rev, none⟩)])
        overall
    | .err _ msg =>
      monitorGo fetch rest
        (acc ++ [(name, ⟨"error", none, none, none, some (msg.getD "Unknown error")⟩)])
        "degraded"
    | .exn msg =>
      monitorGo fetch rest (acc ++ [(name, ⟨"error", none, none, none, some msg⟩)])
        "degraded"

/-- EnhancedMCPAgent.monitor_system_health over a created-tables registry. -/
def monitor_system_health (fetch : String → FetchResp)
    (registry : List (String × String)) : HealthReport :=
  let p := monitorGo fetch registry [] "healthy"
  ⟨p.1, p.2⟩

lemma monitorGo_spec (fetch : String → FetchResp) :
    ∀ (registry : List (String × String)) (acc : List (String × TableHealth))
      (overall : String),
      monitorGo fetch registry acc overall
        = (acc ++ registry.map (fun p => (p.1, tableEntry (fetch p.2))),
           if registry.all (fun p => fetchOk (fetch p.2)) then overall else "degraded") := by
  intro registry
  induction registry with
  | nil => intro acc overall; simp [monitorGo]
  | cons hd rest ih =>
    intro acc overall
    obtain ⟨name, tid⟩ := hd
    cases hresp : fetch tid with
    | ok rc fc rev =>
      rw [monitorGo, hresp]
      dsimp only
      rw [ih]
      have hok : fetchOk (fetch tid) = true := by rw [hresp]; rfl
      simp [tableEntry, hresp, List.all_cons]
      rw [hok, Bool.true_and]
    | err code msg =>
      rw [monitorGo, hresp]
      dsimp only
      rw [ih]
      have hbad : fetchOk (fetch tid) = false := by rw [hresp]; rfl
      simp [tableEntry, hresp, List.all_cons]
      rw [hbad, Bool.false_and]
      simp
    | exn msg =>
      rw [monitorGo, hresp]
      dsimp only
      rw [ih]
      have hbad : fetchOk (fetch tid) = false := by rw [hresp]; rfl
      simp [tableEntry, hresp, List.all_cons]
      rw [hbad, Bool.false_and]
      simp

/-- Registry of three tables used for the one-failure scenario in C5. -/
def exampleRegistry : List (String × String) := [("A", "ta"), ("B", "tb"), ("C", "tc")]

/-- Fetch oracle where only table id "tb" raises an exception. -/
def exampleFetch : String → FetchResp :=
  fun tid => if tid = "tb" then .exn "connection reset" else .ok 1 2 3

/-- Claim C5: the monitor produces one entry per registered table in order
(so a failure for one table never suppresses the others), an entry is
"healthy" exactly when its fetch returned code 0 and "error" otherwise, the
overall status is "healthy" exactly when every fetch succeeded and
"degraded" otherwise, and in the concrete one-failure-among-three scenario
the report is "degraded" with exactly one "error" entry. -/
theorem monitor_health_spec (fetch : String → FetchResp)
    (registry : List (String × String)) :
    (monitor_system_health fetch registry).tables
      = registry.map (fun p => (p.1, tableEntry (fetch p.2)))
  ∧ ((monitor_system_health fetch registry).overall_status
      = if registry.all (fun p => fetchOk (fetch p.2)) then "healthy" else "degraded")
  ∧ (∀ f, (tableEntry f).status = "healthy" ↔ fetchOk f = true)
  ∧ (∀ f, (tableEntry f).status = "error" ↔ fetchOk f = false)
  ∧ (monitor_system_health exampleFetch exampleRegistry).overall_status = "degraded"
  ∧ ((monitor_system_health exampleFetch exampleRegistry).tables.filter
      (fun p => p.2.status = "error")).length = 1 := by
  refine ⟨?_, ?_, ?_, ?_, by decide, by decide⟩
  · rw [monitor_system_health, monitorGo_spec]
    simp
  · rw [monitor_system_health, monitorGo_spec]
  · intro f
    cases f <;> simp [tableEntry, fetchOk]
  · intro f
    cases f <;> simp [tableEntry, fetchOk]

/-! ## Provisioning session (EnhancedMCPAgent.create_enhanced_crm_system,
lines 378-448, with _setup_table_relations lines 540-556,
add_rollup_field lines 254-292 and _get_enhanced_table_configs lines
450-538)

The session authenticates, creates the Base, creates the six configured
tables in order (tracking successes in the created-tables registry),
enters the link phase only when more than 3 tables were created, runs the
no-op rollup phase, and finishes with the health check.  Authentication
and creation outcomes are oracles in `SessionEnv`.  The sample-data phase
(step 7) only issues `batch_create` POSTs and contributes nothing to the
returned dict, so it is not part of the modelled result.  The string
literals of `relations` are written as Unicode escapes of the exact
codepoints stored in the file. -/

/-- The six table names of `_get_enhanced_table_configs`, in creation
order. -/
def tableNames : List String :=
  ["Products", "Customers", "Membership_Tiers", "Subscriptions_Sales", "Bundle_Items",
   "Tier_Perks"]

/-- The hard-coded relation list of `_setup_table_relations`:
(source table, link field name, target table). -/
def relations : List (String × String × String) :=
  [("Customers",
      "\u00e8\u00b3\u00bc\u00e5\u2026\u00a5\u00e5\u00b1\u00a5\u00e6\u00ad\u00b4",
      "Subscriptions_Sales"),
   ("Products",
      "\u00e5\u00a3\u00b2\u00e4\u00b8\u0160\u00e8\u00a8\u02dc\u00e9\u0152\u00b2",
      "Subscriptions_Sales"),
   ("Membership_Tiers",
      "\u00e5\u0160\u00a0\u00e5\u2026\u00a5\u00e8\u20ac\u2026",
      "Subscriptions_Sales"),
   ("Products",
      "\u00e3\u0192\u00e3\u0192\u00b3\u00e3\u0192\u2030\u00e3\u0192\u00ab\u00e6\u00a7\u2039\u00e6\u02c6",
      "Bundle_Items"),
   ("Membership_Tiers",
      "\u00e7\u2030\u00b9\u00e5\u2026\u00b8",
      "Tier_Perks"),
   ("Products",
      "\u00e5\u00af\u00be\u00e8\u00b1\u00a1\u00e7\u2030\u00b9\u00e5\u2026\u00b8",
      "Tier_Perks")]

/-- `self.created_tables.get(name)`: association lookup in the
created-tables registry. -/
def lookupTable (registry : List (String × String)) (name : String) : Option String :=
  registry.lookup name

/-- One `add_link_field` request: the source table id, the link field name
and the target table id of the POSTed payload. -/
structure LinkCall where
  source_id : String
  field_name : String
  target_id : String
  deriving DecidableEq, Repr

/-- The loop body of `_setup_table_relations`: both endpoints are resolved
through the registry and the request is issued only when both are present
(`if source_id and target_id`); nothing is recorded in the skip case. -/
def resolveRelation (registry : List (String × String))
    (r : String × String × String) : Option LinkCall :=
  match lookupTable registry r.1, lookupTable registry r.2.2 with
  | some source_id, some target_id => some ⟨source_id, r.2.1, target_id⟩
  | _, _ => none

/-- EnhancedMCPAgent._setup_table_relations: the `add_link_field` requests
issued for the configured relations, given the registry.  The source
discards the boolean each `add_link_field` returns. -/
def setup_table_relations (registry : List (String × String)) : List LinkCall :=
  relations.filterMap (resolveRelation registry)

/-- The RollupConfig dataclass (lines 55-61). -/
structure RollupConfig where
  table_name : String
  field_name : String
  target_table : String
  target_field : String
  function : String
  deriving DecidableEq, Repr

/-- EnhancedMCPAgent.add_rollup_field, reduced to its observable shape:
whether the fields POST is issued and the returned boolean.  When the
target table is absent from the registry the source logs
"Target table not found", issues no request, and returns False; otherwise
the request is issued and `respOk` is the outcome of the POST. -/
def add_rollup_field (registry : List (String × String)) (cfg : RollupConfig)
    (respOk : Bool) : Bool × Bool :=
  match lookupTable registry cfg.target_table with
  | none => (false, false)
  | some _ => (true, respOk)

/-- Oracles for one provisioning session: the authentication outcome, the
Base-creation outcome, the per-table-name creation outcome
(`create_table_advanced`, a table id on `code == 0`), and the metadata
fetch used by the health check. -/
structure SessionEnv where
  auth : Option String
  base : Option String
  table : String → Option String
  fetch : String → FetchResp

/-- The created-tables registry after the table-creation loop: the names
whose creation succeeded, in creation order, with their table ids.  This
is both `self.created_tables` and the loop-local `creation_results`. -/
def sessionRegistry (env : SessionEnv) : List (String × String) :=
  tableNames.filterMap fun n => (env.table n).map fun tid => (n, tid)

/-- The dict returned by `create_enhanced_crm_system`.  The error returns
carry only status and message; the success return carries the app token,
the per-item successes map `tables`, and the health report.  No key of
either dict records failed items.  `link_phase_run` mirrors whether the
line-411 branch was taken and `link_calls` lists the `add_link_field`
requests it issued. -/
structure SessionResult where
  status : String
  message : Option String := none
  app_token : Option String := none
  tables : List (String × String) := []
  link_phase_run : Bool := false
  link_calls : List LinkCall := []
  health : Option HealthReport := none
  deriving DecidableEq, Repr

/-- EnhancedMCPAgent.create_enhanced_crm_system. -/
def create_enhanced_crm_system (env : SessionEnv) : SessionResult :=
  match env.auth with
  | none => { status := "error", message := some "Authentication failed" }
  | some _tok =>
    match env.base with
    | none => { status := "error", message := some "Base creation failed" }
    | some app_token =>
      let creation_results := sessionRegistry env
      { status := "success"
        message := none
        app_token := some app_token
        tables := creation_results
        link_phase_run := decide (3 < creation_results.length)
        link_calls :=
          if 3 < creation_results.length then setup_table_relations creation_results
          else []
        health := some (monitor_system_health env.fetch creation_results) }

/-- Every string occurring in a health report: names, statuses and error
messages. -/
def healthStrings : Option HealthReport → List String
  | none => []
  | some h =>
    h.overall_status
      :: h.tables.flatMap (fun p => [p.1, p.2.status] ++ p.2.error.toList)

/-- Every string occurring anywhere in a session result: used to state
that an item is mentioned nowhere in the session output. -/
def resultStrings (r : SessionResult) : List String :=
  [r.status] ++ r.message.toList ++ r.app_token.toList
    ++ r.tables.flatMap (fun p => [p.1, p.2])
    ++ r.link_calls.flatMap (fun c => [c.source_id, c.field_name, c.target_id])
    ++ healthStrings r.health

/-- Claim C2: with authentication and Base creation succeeding, the link
phase runs exactly when more than 3 tables were created; the result's
tables map is the registry of successes; with 3 or fewer created tables no
link request is issued and the session still reports success (no
link-phase error); with more than 3 the issued link requests are exactly
those of `_setup_table_relations` over the registry. -/
theorem link_phase_threshold (env : SessionEnv)
    (ha : env.auth.isSome = true) (hb : env.base.isSome = true) :
    ((create_enhanced_crm_system env).link_phase_run = true
      ↔ 3 < (sessionRegistry env).length)
  ∧ (create_enhanced_crm_system env).tables = sessionRegistry env
  ∧ ((sessionRegistry env).length ≤ 3 →
      (create_enhanced_crm_system env).link_calls = []
        ∧ (create_enhanced_crm_system env).status = "success")
  ∧ (3 < (sessionRegistry env).length →
      (create_enhanced_crm_system env).link_calls
        = setup_table_relations (sessionRegistry env)) := by
  obtain ⟨tok, hatok⟩ := Option.isSome_iff_exists.mp ha
  obtain ⟨app, hbase⟩ := Option.isSome_iff_exists.mp hb
  have hres : create_enhanced_crm_system env
      = { status := "success"
          message := none
          app_token := some app
          tables := sessionRegistry env
          link_phase_run := decide (3 < (sessionRegistry env).length)
          link_calls :=
            if 3 < (sessionRegistry env).length then
              setup_table_relations (sessionRegistry env)
            else []
          health := some (monitor_system_health env.fetch (sessionRegistry env)) } := by
    unfold create_enhanced_crm_system
    rw [hatok, hbase]
  refine ⟨?_, ?_, ?_, ?_⟩
  · rw [hres]
    simp
  · rw [hres]
  · intro hle
    rw [hres]
    exact ⟨by simp [Nat.not_lt.mpr hle], rfl⟩
  · intro hgt
    rw [hres]
    simp [hgt]

/-- Session environment where authentication, Base creation, all six
tables and every health fetch succeed. -/
def envAllOk : SessionEnv :=
  { auth := some "tok", base := some "app", table := fun _ => some "t",
    fetch := fun _ => .ok 0 0 0 }

/-- Witness for C2: with all six tables created, the link phase runs and
issues exactly the resolved relation requests. -/
theorem link_phase_threshold_witness :
    (create_enhanced_crm_system envAllOk).link_phase_run = true
  ∧ (create_enhanced_crm_system envAllOk).tables = sessionRegistry envAllOk
  ∧ (create_enhanced_crm_system envAllOk).link_calls
      = setup_table_relations (sessionRegistry envAllOk) := by
  have h := link_phase_threshold envAllOk rfl rfl
  exact ⟨h.1.mpr (by decide), h.2.1, h.2.2.2 (by decide)⟩

/-- Claim C6 amended: the session status is "error" exactly when
authentication or Base creation failed, and "success" otherwise — table
failures never change the status; but the result records only the
per-item successes (the tables map), failed tables being absent from the
returned dict. -/
theorem session_status_spec (env : SessionEnv) :
    ((create_enhanced_crm_system env).status = "error"
      ↔ env.auth = none ∨ env.base = none)
  ∧ ((create_enhanced_crm_system env).status = "success"
      ↔ env.auth ≠ none ∧ env.base ≠ none)
  ∧ (env.auth ≠ none → env.base ≠ none →
      (create_enhanced_crm_system env).tables = sessionRegistry env) := by
  cases hatok : env.auth with
  | none =>
    refine ⟨?_, ?_, ?_⟩
    · simp [create_enhanced_crm_system, hatok]
    · simp [create_enhanced_crm_system, hatok]
    · intro h
      exact absurd rfl h
  | some tok =>
    cases hbase : env.base with
    | none =>
      refine ⟨?_, ?_, ?_⟩
      · simp [create_enhanced_crm_system, hatok, hbase]
      · simp [create_enhanced_crm_system, hatok, hbase]
      · intro _ h
        exact absurd rfl h
    | some app =>
      refine ⟨?_, ?_, ?_⟩
      · simp [create_enhanced_crm_system, hatok, hbase]
      · simp [create_enhanced_crm_system, hatok, hbase]
      · intro _ _
        simp [create_enhanced_crm_system, hatok, hbase]

/-- Witness for the amended C6: the all-success environment yields status
"success" with the full registry recorded. -/
theorem session_status_spec_witness :
    (create_enhanced_crm_system envAllOk).status = "success"
  ∧ (create_enhanced_crm_system envAllOk).tables = sessionRegistry envAllOk := by
  have h := session_status_spec envAllOk
  exact ⟨h.2.1.mpr ⟨by decide, by decide⟩, h.2.2 (by decide) (by decide)⟩

/-- Session environment where only the creation of table "Customers"
fails. -/
def envC6 : SessionEnv :=
  { auth := some "tok", base := some "app",
    table := fun n => if n = "Customers" then none else some "t",
    fetch := fun _ => .ok 0 0 0 }

/-- Claim C6 counterexample: when table "Customers" fails to create, the
session still reports status "success", but no entry identifying the
failed table appears anywhere in the returned result — the per-item
failure is only logged, not recorded in the result. -/
theorem session_failures_not_recorded_cex :
    envC6.table "Customers" = none
  ∧ (create_enhanced_crm_system envC6).status = "success"
  ∧ (create_enhanced_crm_system envC6).tables.length = 5
  ∧ "Customers" ∉ resultStrings (create_enhanced_crm_system envC6) := by
  decide

/-- Session environment where only the creation of table
"Subscriptions_Sales" fails; the first three configured relations
reference it. -/
def envC3 : SessionEnv :=
  { auth := some "tok", base := some "app",
    table := fun n => if n = "Subscriptions_Sales" then none else some "t",
    fetch := fun _ => .ok 0 0 0 }

/-- The first configured relation: Customers links to
Subscriptions_Sales. -/
def relCustomers : String × String × String :=
  ("Customers",
   "\u00e8\u00b3\u00bc\u00e5\u2026\u00a5\u00e5\u00b1\u00a5\u00e6\u00ad\u00b4",
   "Subscriptions_Sales")

/-- Claim C3 counterexample: with "Subscriptions_Sales" absent from the
registry, the session completes with status "success" and the relation
referencing it is skipped, but nothing identifying the skipped item — not
its field name, not the missing table name — appears anywhere in the
session output: the skip is silent, not recorded as a dependency-missing
failure. -/
theorem relations_skip_silent_cex :
    (create_enhanced_crm_system envC3).status = "success"
  ∧ lookupTable (create_enhanced_crm_system envC3).tables "Subscriptions_Sales" = none
  ∧ relCustomers ∈ relations
  ∧ relCustomers.2.1 ∉ resultStrings (create_enhanced_crm_system envC3)
  ∧ "Subscriptions_Sales" ∉ resultStrings (create_enhanced_crm_system envC3) := by
  decide

lemma resolveRelation_eq_some {registry : List (String × String)}
    {r : String × String × String} {c : LinkCall}
    (h : resolveRelation registry r = some c) :
    (lookupTable registry r.1).isSome = true
  ∧ c.field_name = r.2.1
  ∧ (lookupTable registry r.2.2).isSome = true := by
  unfold resolveRelation at h
  cases h1 : lookupTable registry r.1 with
  | none =>
    rw [h1] at h
    simp at h
  | some s =>
    cases h2 : lookupTable registry r.2.2 with
    | none =>
      rw [h1, h2] at h
      simp at h
    | some t =>
      rw [h1, h2] at h
      simp at h
      rw [← h]
      simp

/-- Claim C3 amended: a link definition whose source or target table is
absent from the registry is skipped without crashing but silently — no
`add_link_field` request carrying its field name is issued and nothing is
recorded; and `add_rollup_field` with a missing target table issues no
request and merely returns False. -/
theorem relations_skip_silent (registry : List (String × String))
    (r : String × String × String) (hr : r ∈ relations)
    (hmiss : lookupTable registry r.1 = none ∨ lookupTable registry r.2.2 = none) :
    (∀ c ∈ setup_table_relations registry, c.field_name ≠ r.2.1)
  ∧ (∀ (cfg : RollupConfig) (ok : Bool),
      lookupTable registry cfg.target_table = none →
      add_rollup_field registry cfg ok = (false, false)) := by
  constructor
  · intro c hc heq
    rw [setup_table_relations, List.mem_filterMap] at hc
    obtain ⟨r2, hr2, hres⟩ := hc
    obtain ⟨hs1, hfn, hs2⟩ := resolveRelation_eq_some hres
    have huniq : ∀ a ∈ relations, ∀ b ∈ relations, a.2.1 = b.2.1 → a = b := by decide
    have hreq : r2 = r := huniq r2 hr2 r hr (by rw [← hfn]; exact heq)
    subst hreq
    rcases hmiss with h | h
    · rw [h] at hs1
      simp at hs1
    · rw [h] at hs2
      simp at hs2
  · intro cfg ok h
    simp [add_rollup_field, h]

/-- Rollup configuration whose target table is the missing
Subscriptions_Sales. -/
def rollupCfgW : RollupConfig :=
  ⟨"Products", "LTV", "Subscriptions_Sales", "fld001", "SUM"⟩

/-- Witness for the amended C3: in the session where Subscriptions_Sales
failed, no link request carries the skipped relation's field name, and a
rollup targeting the missing table issues no request and returns False. -/
theorem relations_skip_silent_witness :
    (⟨"t", relCustomers.2.1, "t"⟩ : LinkCall) ∉ setup_table_relations (sessionRegistry envC3)
  ∧ add_rollup_field (sessionRegistry envC3) rollupCfgW true = (false, false) := by
  have h := relations_skip_silent (sessionRegistry envC3) relCustomers (by decide)
    (Or.inr (by decide))
  exact ⟨fun hmem => h.1 _ hmem rfl, h.2 rollupCfgW true (by decide)⟩

/-! ## Field type wire codes

FieldType (src/enhanced-mcp-agent.py lines 31-46),
MCPToolAgent.convert_field_type (src/mcp-tool-agent.py lines 126-145,
used by MCPToolAgent.create_table to serialize every field), and the
hard-coded field POSTs of SetupCRMRelationships.setup_relationships
(src/setup-crm-relationships.py).  Japanese names and the formula braces
are written as escape sequences of the exact source codepoints. -/

/-- The FieldType enumeration. -/
inductive FieldType where
  | TEXT
  | NUMBER
  | SINGLE_SELECT
  | MULTI_SELECT
  | DATETIME
  | CHECKBOX
  | USER
  | PHONE
  | URL
  | ATTACHMENT
  | LINK
  | LOOKUP
  | ROLLUP
  | FORMULA
  | AUTO_NUMBER
  deriving DecidableEq, Repr

/-- The numeric wire code of each FieldType member. -/
def FieldType.value : FieldType → Nat
  | .TEXT => 1
  | .NUMBER => 2
  | .SINGLE_SELECT => 3
  | .MULTI_SELECT => 4
  | .DATETIME => 5
  | .CHECKBOX => 7
  | .USER => 11
  | .PHONE => 13
  | .URL => 15
  | .ATTACHMENT => 17
  | .LINK => 18
  | .LOOKUP => 19
  | .ROLLUP => 20
  | .FORMULA => 21
  | .AUTO_NUMBER => 22

/-- The `type_mapping` dict of MCPToolAgent.convert_field_type. -/
def type_mapping : List (String × Nat) :=
  [("text", 1), ("number", 2), ("single_select", 3), ("multi_select", 4),
   ("datetime", 5), ("checkbox", 7), ("user", 11), ("phone", 13), ("url", 15),
   ("attachment", 17), ("link", 18), ("lookup", 19), ("rollup", 20),
   ("formula", 21), ("auto_number", 22)]

/-- MCPToolAgent.convert_field_type: `type_mapping.get(field_type, 1)`. -/
def convert_field_type (s : String) : Nat :=
  (List.lookup s type_mapping).getD 1

/-- The fifteen recognized field-type name strings. -/
def recognized_type_names : List String := type_mapping.map Prod.fst

/-- The `api_fields` list MCPToolAgent.create_table builds from
`(name, type)` pairs: every type string goes through
`convert_field_type`, with no rejection path. -/
def create_table_api_fields (fields : List (String × String)) : List (String × Nat) :=
  fields.map fun f => (f.1, convert_field_type f.2)

/-- The `property` payload of one field POST in
SetupCRMRelationships.add_field_to_table. -/
inductive FieldProp where
  | empty
  | linkTo (table_id : String) (multiple : Bool)
  | formulaExpr (expression : String)
  | selectOptions (options : List (String × Nat))
  deriving DecidableEq, Repr

/-- One `add_field_to_table` POST: target table id, field name, numeric
type code, property payload. -/
structure FieldAddCall where
  table_id : String
  field_name : String
  type_code : Nat
  prop : FieldProp
  deriving DecidableEq, Repr

/-- Whether a field POST carries a `formula_expression` property, i.e. is
submitted as a formula field. -/
def hasFormulaProp (c : FieldAddCall) : Bool :=
  match c.prop with
  | .formulaExpr _ => true
  | _ => false

/-- The field name of the projected-revenue formula field. -/
def mikomiUriage : String := "\u898b\u8fbc\u307f\u58f2\u4e0a"

/-- The seven field POSTs issued by
SetupCRMRelationships.setup_relationships, in order; table ids come from
the `self.table_ids` dict. -/
def setup_relationships_field_calls : List FieldAddCall :=
  [⟨"tbl8Hc5t1q2p5kSb", "\u9867\u5ba2\u540d", 18, .linkTo "tblzk1pwirAfxqbJ" false⟩,
   ⟨"tbl8Hc5t1q2p5kSb", "\u95a2\u9023YouTube\u52d5\u753b", 18, .linkTo "tblQB4EJSBJJPuDC" true⟩,
   ⟨"tbljyTGrcEmWREwL", "\u9867\u5ba2\u540d", 18, .linkTo "tblzk1pwirAfxqbJ" false⟩,
   ⟨"tbljyTGrcEmWREwL", "\u6848\u4ef6\u540d", 18, .linkTo "tbl8Hc5t1q2p5kSb" false⟩,
   ⟨"tbl8Hc5t1q2p5kSb", mikomiUriage, 20,
      .formulaExpr "IF(\x7b\u4e88\u60f3\u58f2\u4e0a\u91d1\u984d\x7d!=BLANK(),\x7b\u4e88\u60f3\u58f2\u4e0a\u91d1\u984d\x7d*\x7b\u78ba\u5ea6\x7d/100,0)"⟩,
   ⟨"tblQB4EJSBJJPuDC", "\u55b6\u696d\u52b9\u679c\u6307\u6a19", 3,
      .selectOptions [("\u9ad8", 0), ("\u4e2d", 1), ("\u4f4e", 2)]⟩,
   ⟨"tblQB4EJSBJJPuDC", "\u55b6\u696d\u3067\u306e\u4f7f\u7528\u56de\u6570", 2, .empty⟩]

/-- Claim C9 (exhibiting the code bug): the FieldType enumeration and
convert_field_type both give Formula = 21 and Rollup = 20, yet
setup_relationships POSTs the projected-revenue field — submitted as a
formula, with a formula_expression property and a source comment reading
"Formula field type" — with type code 20, the Rollup code; no call with a
formula property carries the required code 21. -/
theorem formula_wire_code_bug :
    FieldType.FORMULA.value = 21
  ∧ FieldType.ROLLUP.value = 20
  ∧ convert_field_type "formula" = 21
  ∧ convert_field_type "rollup" = 20
  ∧ (∃ c ∈ setup_relationships_field_calls,
      c.field_name = mikomiUriage ∧ hasFormulaProp c = true ∧ c.type_code = 20)
  ∧ (∀ c ∈ setup_relationships_field_calls,
      hasFormulaProp c = true → c.type_code ≠ 21) := by
  decide

lemma lookup_eq_none_of_not_mem_keys (s : String) :
    ∀ (l : List (String × Nat)), s ∉ l.map Prod.fst → List.lookup s l = none := by
  intro l
  induction l with
  | nil => intro _; rfl
  | cons kv t ih =>
    intro h
    obtain ⟨k, v⟩ := kv
    rw [List.map_cons, List.mem_cons] at h
    push_neg at h
    obtain ⟨hne, hmem⟩ := h
    have hbeq : (s == k) = false := beq_eq_false_iff_ne.mpr hne
    simp [List.lookup, hbeq, ih hmem]

/-- Claim C10: any field-type string that is not one of the fifteen
recognized names is converted to 1, the text code, and create_table
serializes such a field as text with no rejection. -/
theorem convert_field_type_default_text (s : String) (h : s ∉ recognized_type_names) :
    convert_field_type s = 1
  ∧ create_table_api_fields [("f1", s)] = [("f1", 1)] := by
  have hnone : List.lookup s type_mapping = none :=
    lookup_eq_none_of_not_mem_keys s type_mapping (by simpa [recognized_type_names] using h)
  constructor
  · rw [convert_field_type, hnone]
    rfl
  · simp [create_table_api_fields, convert_field_type, hnone]

/-- Witness for C10: the misspelled (capitalized) type name "Text" is not
recognized and is silently serialized with the text code 1. -/
theorem convert_field_type_default_text_witness :
    convert_field_type "Text" = 1
  ∧ create_table_api_fields [("f1", "Text")] = [("f1", 1)] :=
  convert_field_type_default_text "Text" (by decide)

end LarkMcp
